import Mathlib

set_option maxHeartbeats 1000000

/-!
Shallow embedding of the configuration and search modules of the
mcp-search-perplexity repository (files src/perplexity_mcp/config.py and
src/perplexity_mcp/server.py), together with theorems settling the claims
about the layered configuration resolver, the proxy resolution, the search
gateway and the result formatter.

Python dynamic values (what json.load can return and what ends up stored on
the dataclass fields by the reflective merge) are modelled by an inductive
type PyVal; Python floats are abstracted as rationals.  Operations that can
raise a Python exception are modelled in the Except monad with an error
type PyErr.
-/

/-- Python values as produced by json.load and stored by setattr:
str, int, float (abstracted as a rational), bool, None, list, dict. -/
inductive PyVal where
  | str (s : String)
  | int (n : Int)
  | float (q : Rat)
  | bool (b : Bool)
  | none
  | list (xs : List PyVal)
  | dict (kvs : List (String × PyVal))

/-- Python exceptions that the modelled code can raise. -/
inductive PyErr where
  | typeError
  | keyError
  | attributeError
deriving DecidableEq

/-- Python truthiness (`if value:`); total, never raises. -/
def pyTruthy : PyVal → Bool
  | .str s => s != ""
  | .int n => n != 0
  | .float q => q != 0
  | .bool b => b
  | .none => false
  | .list xs => !xs.isEmpty
  | .dict kvs => !kvs.isEmpty

/-- Substring containment on character lists (Python `needle in haystack`
for strings). -/
def containsSub (hay needle : List Char) : Bool :=
  match hay with
  | [] => needle.isEmpty
  | _ :: t => needle.isPrefixOf hay || containsSub t needle

/-- Python `k in v` for a string key k: key membership on dicts, element
equality on lists, substring test on strings, TypeError otherwise. -/
def pyContains (v : PyVal) (k : String) : Except PyErr Bool :=
  match v with
  | .dict kvs => .ok (kvs.any (fun kv => kv.1 == k))
  | .list xs => .ok (xs.any (fun x => match x with | .str s => s == k | _ => false))
  | .str s => .ok (containsSub s.data k.data)
  | _ => .error .typeError

/-- Python `v[k]` for a string key k: dict lookup (KeyError when absent);
indexing a list or a str with a str raises TypeError, as does indexing a
non-subscriptable value. -/
def pyIndex (v : PyVal) (k : String) : Except PyErr PyVal :=
  match v with
  | .dict kvs =>
    match kvs.find? (fun kv => kv.1 == k) with
    | some kv => .ok kv.2
    | Option.none => .error .keyError
  | _ => .error .typeError

/-- Python `v.items()`: only dicts have it (AttributeError otherwise). -/
def pyItems (v : PyVal) : Except PyErr (List (String × PyVal)) :=
  match v with
  | .dict kvs => .ok kvs
  | _ => .error .attributeError

/-- Python `v.get(k, dflt)`: only dicts have .get (AttributeError otherwise). -/
def pyGetD (v : PyVal) (k : String) (dflt : PyVal) : Except PyErr PyVal :=
  match v with
  | .dict kvs =>
    match kvs.find? (fun kv => kv.1 == k) with
    | some kv => .ok kv.2
    | Option.none => .ok dflt
  | _ => .error .attributeError

/-- Python iteration `for x in v`: lists yield elements, strs yield
one-character strings, dicts yield their keys; other values raise. -/
def pyIter (v : PyVal) : Except PyErr (List PyVal) :=
  match v with
  | .list xs => .ok xs
  | .str s => .ok (s.data.map (fun c => .str (String.mk [c])))
  | .dict kvs => .ok (kvs.map (fun kv => .str kv.1))
  | _ => .error .typeError

/-- Numeric view used by Python order comparisons (`<=`, `<`): int, float
and bool compare as numbers; comparing any other value with a number
raises TypeError. -/
def pyNum : PyVal → Except PyErr Rat
  | .int n => .ok (n : Rat)
  | .float q => .ok q
  | .bool b => .ok (if b then 1 else 0)
  | _ => .error .typeError

/-- Python str() conversion as used by the f-string rendering of a
citation; container repr is abstracted. -/
def pyStr : PyVal → String
  | .str s => s
  | .int n => toString n
  | .float q => toString q
  | .bool b => if b then "True" else "False"
  | .none => "None"
  | .list _ => "[...]"
  | .dict _ => "{...}"

/-- Python str.startswith on the sequence of characters. -/
def pyStartsWith (s pre : String) : Bool :=
  pre.data.isPrefixOf s.data

/-! ## config.py: data model

The dataclasses of config.py.  ProxySettings is kept string-typed: its
fields are only ever the hard-coded defaults or environment strings (the
merge step never writes to it, see mergeConfigs below).  The reflective
merge can store arbitrary JSON values on the perplexity/server dataclass
fields and on debug, so the resolved configuration is modelled with PyVal
fields (AppConfigD); the typed view used by server.py is AppConfig. -/

/-- ProxySettings of config.py (all fields default to the empty string). -/
structure ProxySettings where
  http_proxy : String
  https_proxy : String
  all_proxy : String
  no_proxy : String
deriving DecidableEq

def defaultProxySettings : ProxySettings :=
  { http_proxy := "", https_proxy := "", all_proxy := "", no_proxy := "" }

/-- PerplexitySettings with dynamically typed fields, as the reflective
merge of config.py can leave them.  modelPfx stands for the source field
model_prefix. -/
structure PerplexitySettingsD where
  api_key : PyVal
  api_url : PyVal
  model : PyVal
  modelPfx : PyVal
  system_message : PyVal
  timeout : PyVal
  max_retries : PyVal
  retry_delay : PyVal

/-- Hard-coded defaults of PerplexitySettings (config.py lines 15-25). -/
def defaultPerplexityD : PerplexitySettingsD :=
  { api_key := .str ""
  , api_url := .str "https://api.perplexity.ai/chat/completions"
  , model := .str "sonar"
  , modelPfx := .str ""
  , system_message := .str "Be precise and concise."
  , timeout := .float 30
  , max_retries := .int 3
  , retry_delay := .float 1 }

/-- ServerSettings with dynamically typed fields. -/
structure ServerSettingsD where
  host : PyVal
  port : PyVal
  path : PyVal
  log_level : PyVal
  enable_cors : PyVal
  max_request_size : PyVal

/-- Hard-coded defaults of ServerSettings (config.py lines 93-101). -/
def defaultServerD : ServerSettingsD :=
  { host := .str "127.0.0.1"
  , port := .int 8000
  , path := .str "/mcp"
  , log_level := .str "info"
  , enable_cors := .bool true
  , max_request_size := .int 1048576 }

/-- AppConfig as the resolver produces it (dynamically typed where the
merge can write). config_version is never written by the merge, so it
stays a string. -/
structure AppConfigD where
  perplexity : PerplexitySettingsD
  server : ServerSettingsD
  proxy : ProxySettings
  debug : PyVal
  config_version : String

def defaultAppConfigD : AppConfigD :=
  { perplexity := defaultPerplexityD
  , server := defaultServerD
  , proxy := defaultProxySettings
  , debug := .bool false
  , config_version := "1.0" }

/-! ## config.py: value parsing helpers (_parse_int, _parse_float, _parse_bool) -/

/-- Characters stripped by str.strip() (ASCII whitespace). -/
def isPyWs (c : Char) : Bool :=
  c == ' ' || c == '\t' || c == '\n' || c == '\r' || c == '\x0b' || c == '\x0c'

/-- str.strip() on the character list. -/
def pyStrip (cs : List Char) : List Char :=
  ((cs.dropWhile isPyWs).reverse.dropWhile isPyWs).reverse

/-- str.lower() on the character list. -/
def pyLower (s : String) : String :=
  String.mk (s.data.map Char.toLower)

/-- A run of decimal digits with Python underscore placement (nonempty,
starts and ends with a digit, no two consecutive underscores); returns
(value, number of digits). -/
def digitRun : List Char → Option (Nat × Nat)
  | [] => Option.none
  | [c] => if c.isDigit then some (c.toNat - 48, 1) else Option.none
  | c :: '_' :: rest =>
    if c.isDigit then
      match rest with
      | r :: _ =>
        if r.isDigit then
          match digitRun rest with
          | some (v, k) => some ((c.toNat - 48) * 10 ^ k + v, k + 1)
          | Option.none => Option.none
        else Option.none
      | [] => Option.none
    else Option.none
  | c :: cs =>
    if c.isDigit then
      match digitRun cs with
      | some (v, k) => some ((c.toNat - 48) * 10 ^ k + v, k + 1)
      | Option.none => Option.none
    else Option.none

/-- Python int(string) on an already stripped, unsigned body. -/
def pyIntBody (cs : List Char) : Option Nat :=
  match digitRun cs with
  | some (v, _) => some v
  | Option.none => Option.none

/-- Optional leading sign. -/
def splitSign : List Char → Bool × List Char
  | '-' :: cs => (true, cs)
  | '+' :: cs => (false, cs)
  | cs => (false, cs)

/-- Python int(s) for a str argument: strip whitespace, optional sign,
decimal digits with underscore placement; Option.none models ValueError. -/
def pyInt (s : String) : Option Int :=
  let (neg, body) := splitSign (pyStrip s.data)
  match pyIntBody body with
  | some v => some (if neg then -(v : Int) else (v : Int))
  | Option.none => Option.none

/-- Mantissa of a Python float literal: digits, optionally with a dot
(at most one of the two runs may be empty). Returns its rational value. -/
def pyFloatMantissa (cs : List Char) : Option Rat :=
  match cs.splitOn '.' with
  | [ip] =>
    match digitRun ip with
    | some (v, _) => some (v : Rat)
    | Option.none => Option.none
  | [ip, fp] =>
    match ip, fp with
    | [], [] => Option.none
    | [], _ =>
      match digitRun fp with
      | some (v, k) => some ((v : Rat) / (10 : Rat) ^ k)
      | Option.none => Option.none
    | _, [] =>
      match digitRun ip with
      | some (v, _) => some (v : Rat)
      | Option.none => Option.none
    | _, _ =>
      match digitRun ip, digitRun fp with
      | some (v, _), some (w, k) => some ((v : Rat) + (w : Rat) / (10 : Rat) ^ k)
      | _, _ => Option.none
  | _ => Option.none

/-- Python float(s) for a str argument (finite decimal literals with an
optional exponent; the special values inf/nan are outside the rational
abstraction and modelled as parse failures). -/
def pyFloat (s : String) : Option Rat :=
  let (neg, body) := splitSign (pyStrip s.data)
  let (mant, ex) :=
    match body.splitOn 'e' with
    | [m, e] => (m, some e)
    | _ =>
      match body.splitOn 'E' with
      | [m, e] => (m, some e)
      | _ => (body, Option.none)
  let mval := pyFloatMantissa mant
  let eval : Option Int :=
    match ex with
    | Option.none => some 0
    | some ecs =>
      let (eneg, ebody) := splitSign ecs
      match digitRun ebody with
      | some (v, _) => some (if eneg then -(v : Int) else (v : Int))
      | Option.none => Option.none
  match mval, eval with
  | some m, some e =>
    let scaled := if 0 ≤ e then m * (10 : Rat) ^ e.toNat else m / (10 : Rat) ^ (-e).toNat
    some (if neg then -scaled else scaled)
  | _, _ => Option.none

/-- ConfigManager._parse_int: None or empty gives None, otherwise int(value)
with ValueError mapped to None (config.py lines 364-372). -/
def parseIntS (s : String) : Option Int :=
  if s == "" then Option.none else pyInt s

def parseIntOpt : Option String → Option Int
  | Option.none => Option.none
  | some s => parseIntS s

/-- ConfigManager._parse_float (config.py lines 374-382). -/
def parseFloatS (s : String) : Option Rat :=
  if s == "" then Option.none else pyFloat s

def parseFloatOpt : Option String → Option Rat
  | Option.none => Option.none
  | some s => parseFloatS s

/-- ConfigManager._parse_bool (config.py lines 384-389). -/
def parseBoolS (s : String) : Option Bool :=
  if s == "" then Option.none
  else some (pyLower s == "true" || pyLower s == "1" || pyLower s == "yes" || pyLower s == "on")

def parseBoolOpt : Option String → Option Bool
  | Option.none => Option.none
  | some s => parseBoolS s

/-! ## config.py: environment model and _load_from_env -/

/-- The process environment variables read by ConfigManager._load_from_env
(config.py lines 161-213); a missing variable is Option.none. -/
structure OsEnv where
  PERPLEXITY_API_KEY : Option String := Option.none
  PERPLEXITY_API_URL : Option String := Option.none
  PERPLEXITY_MODEL : Option String := Option.none
  PERPLEXITY_MODEL_PFX : Option String := Option.none
  PERPLEXITY_SYSTEM_MESSAGE : Option String := Option.none
  PERPLEXITY_TIMEOUT : Option String := Option.none
  PERPLEXITY_MAX_RETRIES : Option String := Option.none
  PERPLEXITY_RETRY_DELAY : Option String := Option.none
  MCP_HOST : Option String := Option.none
  MCP_PORT : Option String := Option.none
  MCP_PATH : Option String := Option.none
  LOG_LEVEL : Option String := Option.none
  ENABLE_CORS : Option String := Option.none
  MAX_REQUEST_SIZE : Option String := Option.none
  DEBUG : Option String := Option.none
  HTTP_PROXY : Option String := Option.none
  http_proxy : Option String := Option.none
  HTTPS_PROXY : Option String := Option.none
  https_proxy : Option String := Option.none
  ALL_PROXY : Option String := Option.none
  all_proxy : Option String := Option.none
  NO_PROXY : Option String := Option.none
  no_proxy : Option String := Option.none
deriving DecidableEq

def emptyEnv : OsEnv := {}

/-- os.getenv(X, "") -/
def getenvD (o : Option String) : String := o.getD ""

/-- Python `os.getenv(UPPER) or os.getenv(lower, "")` (empty and missing
fall through to the lowercase variable). -/
def envOr (upper lower : Option String) : String :=
  match upper with
  | some s => if s != "" then s else getenvD lower
  | Option.none => getenvD lower

/-- A dict entry for a string-valued variable, kept only when non-empty
(the `value is not None and value != ""` filter). -/
def optStrEntry (k : String) (s : String) : List (String × PyVal) :=
  if s == "" then [] else [(k, .str s)]

/-- A dict entry for a parsed numeric/bool variable, kept when parsing
succeeded (None is filtered out; a number or bool never equals ""). -/
def optValEntry (k : String) (o : Option PyVal) : List (String × PyVal) :=
  match o with
  | some v => [(k, v)]
  | Option.none => []

/-- The "perplexity" section built by _load_from_env (insertion order of
the source dict literal, config.py lines 171-185). -/
def envPerplexityEntries (e : OsEnv) : List (String × PyVal) :=
  optStrEntry "api_key" (getenvD e.PERPLEXITY_API_KEY) ++
  optStrEntry "api_url" (getenvD e.PERPLEXITY_API_URL) ++
  optStrEntry "model" (getenvD e.PERPLEXITY_MODEL) ++
  optStrEntry "model_prefix" (getenvD e.PERPLEXITY_MODEL_PFX) ++
  optStrEntry "system_message" (getenvD e.PERPLEXITY_SYSTEM_MESSAGE) ++
  optValEntry "timeout" ((parseFloatOpt e.PERPLEXITY_TIMEOUT).map PyVal.float) ++
  optValEntry "max_retries" ((parseIntOpt e.PERPLEXITY_MAX_RETRIES).map PyVal.int) ++
  optValEntry "retry_delay" ((parseFloatOpt e.PERPLEXITY_RETRY_DELAY).map PyVal.float)

/-- The "server" section built by _load_from_env (config.py lines 188-199). -/
def envServerEntries (e : OsEnv) : List (String × PyVal) :=
  optStrEntry "host" (getenvD e.MCP_HOST) ++
  optValEntry "port" ((parseIntOpt e.MCP_PORT).map PyVal.int) ++
  optStrEntry "path" (getenvD e.MCP_PATH) ++
  optStrEntry "log_level" (getenvD e.LOG_LEVEL) ++
  optValEntry "enable_cors" ((parseBoolOpt e.ENABLE_CORS).map PyVal.bool) ++
  optValEntry "max_request_size" ((parseIntOpt e.MAX_REQUEST_SIZE).map PyVal.int)

/-- The "proxy" section built by _load_from_env (config.py lines 202-211,
filter `if value:`). -/
def envProxyEntries (e : OsEnv) : List (String × PyVal) :=
  optStrEntry "http_proxy" (envOr e.HTTP_PROXY e.http_proxy) ++
  optStrEntry "https_proxy" (envOr e.HTTPS_PROXY e.https_proxy) ++
  optStrEntry "all_proxy" (envOr e.ALL_PROXY e.all_proxy) ++
  optStrEntry "no_proxy" (envOr e.NO_PROXY e.no_proxy)

/-- The "debug" entry of env_config: always present, computed from DEBUG
(config.py line 167). -/
def envDebug (e : OsEnv) : Bool :=
  let d := pyLower (getenvD e.DEBUG)
  d == "true" || d == "1" || d == "yes"

/-- The dict returned by _load_from_env; the four keys perplexity, server,
proxy and debug are always present. -/
structure EnvConfigD where
  perplexity : List (String × PyVal)
  server : List (String × PyVal)
  proxy : List (String × PyVal)
  debug : Bool

def loadFromEnv (e : OsEnv) : EnvConfigD :=
  { perplexity := envPerplexityEntries e
  , server := envServerEntries e
  , proxy := envProxyEntries e
  , debug := envDebug e }

/-! ## config.py: _load_from_file, _merge_configs, _validate_config, load_config -/

/-- The state of the configuration file: missing, unreadable-or-malformed
(IOError or json.JSONDecodeError, including an empty file), or a
successfully parsed JSON value. -/
inductive FileInput where
  | missing
  | unreadable
  | content (j : PyVal)

/-- Warnings printed by the config module. -/
inductive CfgWarning where
  | fileLoadFailed
  | apiKeyMissing
  | timeoutNonpos
  | retriesNeg
  | portRange
  | reqSizeNonpos
deriving DecidableEq

/-- ConfigManager._load_from_file (config.py lines 149-159): a missing file
yields {} silently; an unreadable or malformed file yields {} with a
warning; otherwise the parsed JSON value. -/
def loadFromFile : FileInput → PyVal × List CfgWarning
  | .missing => (.dict [], [])
  | .unreadable => (.dict [], [.fileLoadFailed])
  | .content j => (j, [])

/-- Reflective merge step `if hasattr(config.perplexity, key):
setattr(config.perplexity, key, value)` for the PerplexitySettings
dataclass: known keys are written, unknown keys are ignored. -/
def setPerplexityField (p : PerplexitySettingsD) (k : String) (v : PyVal) : PerplexitySettingsD :=
  if k == "api_key" then { p with api_key := v }
  else if k == "api_url" then { p with api_url := v }
  else if k == "model" then { p with model := v }
  else if k == "model_prefix" then { p with modelPfx := v }
  else if k == "system_message" then { p with system_message := v }
  else if k == "timeout" then { p with timeout := v }
  else if k == "max_retries" then { p with max_retries := v }
  else if k == "retry_delay" then { p with retry_delay := v }
  else p

/-- The same reflective assignment for the ServerSettings dataclass. -/
def setServerField (s : ServerSettingsD) (k : String) (v : PyVal) : ServerSettingsD :=
  if k == "host" then { s with host := v }
  else if k == "port" then { s with port := v }
  else if k == "path" then { s with path := v }
  else if k == "log_level" then { s with log_level := v }
  else if k == "enable_cors" then { s with enable_cors := v }
  else if k == "max_request_size" then { s with max_request_size := v }
  else s

def applyPerplexityItems (items : List (String × PyVal)) (p : PerplexitySettingsD) : PerplexitySettingsD :=
  items.foldl (fun q kv => setPerplexityField q kv.1 kv.2) p

def applyServerItems (items : List (String × PyVal)) (s : ServerSettingsD) : ServerSettingsD :=
  items.foldl (fun q kv => setServerField q kv.1 kv.2) s

/-- ConfigManager._merge_configs (config.py lines 215-252): start from the
defaults, apply the "perplexity", "server" and "debug" parts of the file
dict, then the same three parts of the env dict.  The "proxy" part of
either dict and the "config_version" key are never applied; the env dict
always contains "debug", so the env debug value is always written.  Python
`in`, indexing and .items() on the untyped file value can raise. -/
def mergeConfigs (fileC : PyVal) (envc : EnvConfigD) : Except PyErr AppConfigD := do
  let cfg := defaultAppConfigD
  let hasP ← pyContains fileC "perplexity"
  let per1 ←
    if hasP then do
      let sec ← pyIndex fileC "perplexity"
      let items ← pyItems sec
      pure (applyPerplexityItems items cfg.perplexity)
    else pure cfg.perplexity
  let hasS ← pyContains fileC "server"
  let srv1 ←
    if hasS then do
      let sec ← pyIndex fileC "server"
      let items ← pyItems sec
      pure (applyServerItems items cfg.server)
    else pure cfg.server
  let hasD ← pyContains fileC "debug"
  let _dbg1 ← if hasD then pyIndex fileC "debug" else pure cfg.debug
  let per2 := applyPerplexityItems envc.perplexity per1
  let srv2 := applyServerItems envc.server srv1
  let dbg2 := PyVal.bool envc.debug
  pure { perplexity := per2
       , server := srv2
       , proxy := cfg.proxy
       , debug := dbg2
       , config_version := cfg.config_version }

/-- ConfigManager._validate_config (config.py lines 254-278): collects
warnings; the numeric comparisons raise TypeError on non-numeric values. -/
def validateConfig (c : AppConfigD) : Except PyErr (List CfgWarning) := do
  let w1 := if pyTruthy c.perplexity.api_key then ([] : List CfgWarning) else [.apiKeyMissing]
  let tv ← pyNum c.perplexity.timeout
  let w2 := if tv ≤ 0 then ([] : List CfgWarning) ++ [.timeoutNonpos] else []
  let rv ← pyNum c.perplexity.max_retries
  let w3 := if rv < 0 then [CfgWarning.retriesNeg] else []
  let pv ← pyNum c.server.port
  let w4 := if ¬(1 ≤ pv ∧ pv ≤ 65535) then [CfgWarning.portRange] else []
  let sv ← pyNum c.server.max_request_size
  let w5 := if sv ≤ 0 then [CfgWarning.reqSizeNonpos] else []
  pure (w1 ++ w2 ++ w3 ++ w4 ++ w5)

/-- ConfigManager.load_config (config.py lines 127-147): file, then env,
then merge (env over file over defaults, except for the gaps noted at
mergeConfigs), then validation warnings. -/
def loadConfig (f : FileInput) (e : OsEnv) : Except PyErr (AppConfigD × List CfgWarning) := do
  let (fileC, w0) := loadFromFile f
  let envc := loadFromEnv e
  let cfg ← mergeConfigs fileC envc
  let wv ← validateConfig cfg
  pure (cfg, w0 ++ wv)

/-! ## config.py: save_config serialization -/

/-- dataclasses.asdict for PerplexitySettings (field order). -/
def perplexityAsDict (p : PerplexitySettingsD) : PyVal :=
  .dict [("api_key", p.api_key), ("api_url", p.api_url), ("model", p.model),
         ("model_prefix", p.modelPfx), ("system_message", p.system_message),
         ("timeout", p.timeout), ("max_retries", p.max_retries),
         ("retry_delay", p.retry_delay)]

/-- dataclasses.asdict for ServerSettings (field order). -/
def serverAsDict (s : ServerSettingsD) : PyVal :=
  .dict [("host", s.host), ("port", s.port), ("path", s.path),
         ("log_level", s.log_level), ("enable_cors", s.enable_cors),
         ("max_request_size", s.max_request_size)]

/-- The dict serialized by ConfigManager.save_config (config.py lines
293-298): the perplexity and server sections, debug and config_version;
the proxy settings are not part of it. -/
def saveConfigDict (c : AppConfigD) : PyVal :=
  .dict [("perplexity", perplexityAsDict c.perplexity),
         ("server", serverAsDict c.server),
         ("debug", c.debug),
         ("config_version", .str c.config_version)]

/-- Keys of a serialized dict, in order ([] for a non-dict). -/
def dictKeys : PyVal → List String
  | .dict kvs => kvs.map (fun kv => kv.1)
  | _ => []

/-- Order-respecting lookup in a serialized dict. -/
def dictLookup (v : PyVal) (k : String) : Option PyVal :=
  match v with
  | .dict kvs =>
    match kvs.find? (fun kv => kv.1 == k) with
    | some kv => some kv.2
    | Option.none => Option.none
  | _ => Option.none

/-! ## server.py: typed settings view

server.py reads the resolved configuration through the dataclass fields
with their declared types; the typed view below is the data model of the
search gateway.  modelPfx stands for the source field model_prefix. -/

structure PerplexitySettings where
  api_key : String
  api_url : String
  model : String
  modelPfx : String
  system_message : String
  timeout : Rat
  max_retries : Int
  retry_delay : Rat
deriving DecidableEq

def defaultPerplexitySettings : PerplexitySettings :=
  { api_key := ""
  , api_url := "https://api.perplexity.ai/chat/completions"
  , model := "sonar"
  , modelPfx := ""
  , system_message := "Be precise and concise."
  , timeout := 30
  , max_retries := 3
  , retry_delay := 1 }

structure ServerSettings where
  host : String
  port : Int
  path : String
  log_level : String
  enable_cors : Bool
  max_request_size : Int
deriving DecidableEq

def defaultServerSettings : ServerSettings :=
  { host := "127.0.0.1", port := 8000, path := "/mcp", log_level := "info"
  , enable_cors := true, max_request_size := 1048576 }

structure AppConfig where
  perplexity : PerplexitySettings
  server : ServerSettings
  proxy : ProxySettings
  debug : Bool
  config_version : String
deriving DecidableEq

def defaultAppConfig : AppConfig :=
  { perplexity := defaultPerplexitySettings
  , server := defaultServerSettings
  , proxy := defaultProxySettings
  , debug := false
  , config_version := "1.0" }

/-! ## config.py: ProxySettings methods (get_proxy_config, get_httpx_proxy,
validate_proxy_url) -/

/-- ProxySettings.get_proxy_config (config.py lines 36-51): the http entry
(specific proxy, else all_proxy) followed by the https entry (specific,
else all_proxy); nothing for a scheme with neither. -/
def getProxyConfig (p : ProxySettings) : List (String × String) :=
  (if p.http_proxy != "" then [("http://", p.http_proxy)]
   else if p.all_proxy != "" then [("http://", p.all_proxy)]
   else []) ++
  (if p.https_proxy != "" then [("https://", p.https_proxy)]
   else if p.all_proxy != "" then [("https://", p.all_proxy)]
   else [])

/-- Ordered assoc lookup used for the proxies dict. -/
def lookupStr (l : List (String × String)) (k : String) : Option String :=
  match l.find? (fun kv => kv.1 == k) with
  | some kv => some kv.2
  | Option.none => Option.none

/-- ProxySettings.get_httpx_proxy (config.py lines 53-65): None for an
empty map, else the https entry, else the http entry. -/
def getHttpxProxy (p : ProxySettings) : Option String :=
  let proxies := getProxyConfig p
  if proxies.isEmpty then Option.none
  else
    match lookupStr proxies "https://" with
    | some v => some v
    | Option.none =>
      match lookupStr proxies "http://" with
      | some v => some v
      | Option.none => Option.none

/-! urllib.parse.urlparse, restricted to the scheme and netloc components
used by validate_proxy_url and get_proxy_info. -/

def isSchemeChar (c : Char) : Bool :=
  c.isAlpha || c.isDigit || c == '+' || c == '-' || c == '.'

/-- Split off a URL scheme: the part before the first colon when it is a
nonempty run of scheme characters starting with a letter (lowercased),
otherwise no scheme. -/
def splitScheme (cs : List Char) : List Char × List Char :=
  let pre := cs.takeWhile (fun c => c != ':')
  let headAlpha := match pre with | c :: _ => c.isAlpha | [] => false
  if pre.length < cs.length && !pre.isEmpty && pre.all isSchemeChar && headAlpha then
    (pre.map Char.toLower, cs.drop (pre.length + 1))
  else
    ([], cs)

/-- The netloc component: present only after a leading "//", up to the
next '/', '?' or '#'. -/
def netlocOf (cs : List Char) : List Char :=
  match cs with
  | '/' :: '/' :: rest => rest.takeWhile (fun c => c != '/' && c != '?' && c != '#')
  | _ => []

def urlScheme (url : String) : String := String.mk (splitScheme url.data).1

def urlNetloc (url : String) : String := String.mk (netlocOf (splitScheme url.data).2)

/-- ProxySettings.validate_proxy_url (config.py lines 67-73):
bool(parsed.scheme and parsed.netloc). -/
def validateProxyUrl (url : String) : Bool :=
  urlScheme url != "" && urlNetloc url != ""

/-- The redacted proxy description built by get_proxy_info (config.py
lines 75-90), restricted to the components the log line uses. -/
structure ProxyDescr where
  scheme : String
  host : String
  port : String
  auth : Option String
deriving DecidableEq

/-- Hostname/port split of a netloc (auth part before '@' dropped for the
host, kept for auth; trailing :digits is the port). -/
def hostPortOf (netloc : List Char) : List Char × List Char :=
  let hostport := (netloc.reverse.takeWhile (fun c => c != '@')).reverse
  let revHp := hostport.reverse
  let revPort := revHp.takeWhile (fun c => c != ':')
  if revPort.length < revHp.length ∧ revPort ≠ [] ∧ revPort.all Char.isDigit then
    ((revHp.drop (revPort.length + 1)).reverse, revPort.reverse)
  else
    (hostport, [])

/-- ProxySettings.get_proxy_info: scheme, lowercased hostname (or
"unknown"), port (or "default"), and a redacted auth marker when the
netloc carries credentials. -/
def getProxyInfo (url : String) : ProxyDescr :=
  let netloc := (netlocOf (splitScheme url.data).2)
  let (host, port) := hostPortOf netloc
  let auth :=
    if netloc.any (fun c => c == '@') then
      some (String.mk ((netloc.takeWhile (fun c => c != '@')).takeWhile (fun c => c != ':')) ++ ":***")
    else Option.none
  { scheme := urlScheme url
  , host := if host.isEmpty then "unknown" else String.mk (host.map Char.toLower)
  , port := if port.isEmpty then "default" else String.mk port
  , auth := auth }

/-! ## server.py: create_http_client and the search tool -/

/-- The httpx.AsyncClient configuration assembled by create_http_client. -/
structure ClientConfig where
  timeout : Rat
  follow_redirects : Bool
  proxy : Option String
deriving DecidableEq

/-- Console lines printed by create_http_client. -/
inductive LogLine where
  | usingProxy (d : ProxyDescr)
  | warnInvalidProxy (url : String)
  | directInvalid
  | directNoProxy
deriving DecidableEq

/-- server.create_http_client (server.py lines 56-80): timeout and
follow_redirects always; the single effective proxy only when it is
present and validates, otherwise a warning and no proxy. -/
def createHttpClient (cfg : AppConfig) : ClientConfig × List LogLine :=
  let base : ClientConfig :=
    { timeout := cfg.perplexity.timeout, follow_redirects := true, proxy := Option.none }
  match getHttpxProxy cfg.proxy with
  | some url =>
    if validateProxyUrl url then
      ({ base with proxy := some url }, [.usingProxy (getProxyInfo url)])
    else
      (base, [.warnInvalidProxy url, .directInvalid])
  | Option.none => (base, [.directNoProxy])

/-- The model actually used: the per-call override when truthy, else the
configured model (server.py line 124, `model or config.perplexity.model`). -/
def effectiveModel (cfg : PerplexitySettings) (reqModel : Option String) : String :=
  match reqModel with
  | some m => if m != "" then m else cfg.model
  | Option.none => cfg.model

/-- The prefixing step (server.py lines 126-127): prepend model_prefix when
it is non-empty and the model does not already start with it. -/
def prefixedModel (pfx m : String) : String :=
  if pfx != "" && !(pyStartsWith m pfx) then pfx ++ m else m

def usedModel (cfg : PerplexitySettings) (reqModel : Option String) : String :=
  prefixedModel cfg.modelPfx (effectiveModel cfg reqModel)

/-- The system message actually used (server.py line 128). -/
def usedSystemMessage (cfg : PerplexitySettings) (reqSys : Option String) : String :=
  match reqSys with
  | some s => if s != "" then s else cfg.system_message
  | Option.none => cfg.system_message

/-- The outcome of the underlying httpx POST: a response with a status and
a parsed JSON body, a timeout, or a proxy-layer failure. -/
inductive TransportResult where
  | reply (status : Nat) (body : PyVal)
  | timedOut
  | proxyFailed

/-- What the search tool hands to the transport. -/
structure HttpRequestData where
  url : String
  headers : List (String × String)
  body : PyVal

/-- Observable resource effects of one search call, in order. -/
inductive CallEffect where
  | clientCreated
  | httpPosted
deriving DecidableEq

/-- The classified outcome of the search tool (server.py §error taxonomy). -/
inductive SearchResult where
  | ok (text : String)
  | errMissingKey
  | errUpstream (status : Nat)
  | errMalformed
  | errTimeout
  | errProxy
  | errUnexpected
deriving DecidableEq

/-- The content extraction for one choice (server.py line 199):
`if "message" in choice and "content" in choice["message"]` then the
content value; dynamic, can raise. -/
def choiceContent (c : PyVal) : Except PyErr (Option PyVal) :=
  match pyContains c "message" with
  | .error e => .error e
  | .ok false => .ok Option.none
  | .ok true =>
    match pyIndex c "message" with
    | .error e => .error e
    | .ok m =>
      match pyContains m "content" with
      | .error e => .error e
      | .ok false => .ok Option.none
      | .ok true =>
        match pyIndex m "content" with
        | .error e => .error e
        | .ok v => .ok (some v)

/-- The content_parts accumulation loop (server.py lines 197-200). -/
def contentLoop (acc : List PyVal) : List PyVal → Except PyErr (List PyVal)
  | [] => .ok acc
  | c :: rest =>
    match choiceContent c with
    | .error e => .error e
    | .ok (some v) => contentLoop (acc ++ [v]) rest
    | .ok Option.none => contentLoop acc rest

def contentPartsPy (items : List PyVal) : Except PyErr (List PyVal) :=
  contentLoop [] items

/-- str.join checks each item: the list of parts as strings, or a failure
marker on the first non-str. -/
def allStrs : List PyVal → Option (List String)
  | [] => some []
  | .str s :: rest => (allStrs rest).map (fun ss => s :: ss)
  | _ => Option.none

/-- Space join `" ".join(content_parts)` (server.py line 202): every part
must be a str, else TypeError. -/
def joinSpacePy (parts : List PyVal) : Except PyErr String :=
  match allStrs parts with
  | some ss => .ok (String.intercalate " " ss)
  | Option.none => .error .typeError

/-- The citation block loop (server.py lines 212-214): starts from the
header, appends one "[index] citation" line per element, 1-based. -/
def citationsTextPy (citems : List PyVal) : String :=
  (citems.foldl
    (fun (acc : String × Nat) c =>
      (acc.1 ++ "[" ++ toString acc.2 ++ "] " ++ pyStr c ++ "\n", acc.2 + 1))
    ("\n\n引用信息:\n", 1)).1

/-- The result assembly of server.py lines 196-216 for an already
materialized choices list and the raw citations value: space-joined
contents, plus the citation block when citations is truthy. -/
def formatSearchResult (choices : List PyVal) (citationsVal : PyVal) : Except PyErr String :=
  match contentPartsPy choices with
  | .error e => .error e
  | .ok parts =>
    match joinSpacePy parts with
    | .error e => .error e
    | .ok content =>
      if pyTruthy citationsVal then
        match pyIter citationsVal with
        | .error e => .error e
        | .ok citems => .ok (content ++ citationsTextPy citems)
      else .ok content

/-- Processing of a 200 response body (server.py lines 183-221): missing
choices field is the malformed-response error, empty choices yields the
sentinel text, otherwise the formatted content; any dynamic TypeError or
AttributeError falls into the generic exception handler. -/
def processBody (body : PyVal) : SearchResult :=
  match pyContains body "choices" with
  | .error _ => .errUnexpected
  | .ok false => .errMalformed
  | .ok true =>
    match pyGetD body "choices" (.list []) with
    | .error _ => .errUnexpected
    | .ok choices =>
      if !(pyTruthy choices) then .ok "未找到搜索结果"
      else
        match pyIter choices with
        | .error _ => .errUnexpected
        | .ok items =>
          match pyGetD body "citations" (.list []) with
          | .error _ => .errUnexpected
          | .ok cits =>
            match formatSearchResult items cits with
            | .error _ => .errUnexpected
            | .ok text => .ok text

/-- The search tool (server.py lines 84-249), parameterized by the
transport.  An empty api_key fails before the HTTP client is created and
before any request is posted (empty effect trace); otherwise the client is
created, the request posted once, and the transport outcome classified. -/
def searchT (cfg : AppConfig) (keyword : String)
    (reqModel reqSys : Option String)
    (post : ClientConfig → HttpRequestData → TransportResult) :
    SearchResult × List CallEffect :=
  if cfg.perplexity.api_key == "" then (.errMissingKey, [])
  else
    let um := usedModel cfg.perplexity reqModel
    let us := usedSystemMessage cfg.perplexity reqSys
    let reqData : PyVal :=
      .dict [("model", .str um),
             ("messages", .list
               [.dict [("role", .str "system"), ("content", .str us)],
                .dict [("role", .str "user"), ("content", .str keyword)]])]
    let headers :=
      [("Content-Type", "application/json"), ("Accept", "application/json"),
       ("Authorization", "Bearer " ++ cfg.perplexity.api_key)]
    let client := (createHttpClient cfg).1
    match post client { url := cfg.perplexity.api_url, headers := headers, body := reqData } with
    | .timedOut => (.errTimeout, [.clientCreated, .httpPosted])
    | .proxyFailed => (.errProxy, [.clientCreated, .httpPosted])
    | .reply status body =>
      if status ≠ 200 then (.errUpstream status, [.clientCreated, .httpPosted])
      else (processBody body, [.clientCreated, .httpPosted])

/-! ## Spec-side helper definitions used by the theorems -/

/-- A value that Python order comparisons accept as a number. -/
def isNumB : PyVal → Bool
  | .int _ => true
  | .float _ => true
  | .bool _ => true
  | _ => false

/-- The configuration obtained when the file contributes nothing (missing
or unreadable): defaults overridden by environment values only. -/
def envMergedConfig (e : OsEnv) : AppConfigD :=
  { perplexity := applyPerplexityItems (envPerplexityEntries e) defaultPerplexityD
  , server := applyServerItems (envServerEntries e) defaultServerD
  , proxy := defaultProxySettings
  , debug := .bool (envDebug e)
  , config_version := "1.0" }

/-- The extractable string content of a choice, when its dynamic
extraction succeeds with a string (spec-side view). -/
def goodContent (c : PyVal) : Option String :=
  match choiceContent c with
  | .ok (some (.str s)) => some s
  | _ => Option.none

/-- A choice on which the dynamic extraction is well-behaved: either no
extractable content, or a string content. -/
def ChoiceOk (c : PyVal) : Prop :=
  choiceContent c = .ok Option.none ∨ ∃ s, choiceContent c = .ok (some (.str s))

/-- One rendered citation line, from a 1-based index and the citation. -/
def citationLine (p : Nat × String) : String :=
  "[" ++ toString p.1 ++ "] " ++ p.2 ++ "\n"

/-- Plain concatenation of a list of strings (spec-side). -/
def joinAll : List String → String
  | [] => ""
  | a :: l => a ++ joinAll l

/-- A configuration with the proxy settings cleared. -/
def clearProxy (cfg : AppConfig) : AppConfig :=
  { cfg with proxy := defaultProxySettings }

/-! # Theorems -/

/-- C1: the claim states per-field precedence environment > file > default
for every field of PerplexitySettings, ServerSettings, ProxySettings and
for debug and config_version.  The code violates it: the always-present
env "debug" entry overwrites a file-set debug even when the DEBUG variable
is absent, and a config_version present in the file is never applied (nor
is any proxy field, see C2).  Both violations evaluated at concrete
inputs. -/
theorem c1_precedence_code_bug :
    ((loadConfig (FileInput.content (.dict [("debug", .bool true)])) emptyEnv).map
      (fun p => p.1.debug) = Except.ok (PyVal.bool false)) ∧
    ((loadConfig (FileInput.content (.dict [("config_version", .str "2.0")])) emptyEnv).map
      (fun p => p.1.config_version) = Except.ok "1.0") :=
  ⟨rfl, rfl⟩

/-- C2: the claim states that a non-empty proxy environment variable ends
up in the corresponding ProxySettings field of the resolved AppConfig.
The code drops the whole env proxy section in _merge_configs: with all
four proxy variables set, the resolved proxy settings are still the
defaults (all empty). -/
theorem c2_env_proxy_dropped :
    (loadConfig FileInput.missing
      { emptyEnv with
          HTTP_PROXY := some "http://proxy.example.com:8080"
        , HTTPS_PROXY := some "http://proxy2.example.com:8443"
        , ALL_PROXY := some "socks5://proxy3.example.com:1080"
        , NO_PROXY := some "localhost" }).map (fun p => p.1.proxy) =
    Except.ok defaultProxySettings :=
  rfl

/-- C3 counterexample: the claim says load_config returns an AppConfig for
every syntactically valid JSON file content of any shape; on the valid
JSON document `42` the merge raises a TypeError
(`"perplexity" in file_config` on an int). -/
theorem c3_counterexample :
    loadConfig (FileInput.content (.int 42)) emptyEnv = .error .typeError :=
  rfl

/-- C9 counterexample: the claim says save_config serializes all three
nested settings groups including proxy; the serialized dict of the default
configuration has no "proxy" key at all. -/
theorem c9_counterexample :
    dictKeys (saveConfigDict defaultAppConfigD) =
      ["perplexity", "server", "debug", "config_version"] ∧
    dictLookup (saveConfigDict defaultAppConfigD) "proxy" = Option.none :=
  ⟨rfl, rfl⟩

/-- C9 amended: for every AppConfig, save_config serializes exactly the
perplexity and server groups together with debug and config_version (with
all dataclass fields, via asdict); the proxy group is not serialized. -/
theorem c9_amended_save_serialization (c : AppConfigD) :
    dictLookup (saveConfigDict c) "perplexity" = some (perplexityAsDict c.perplexity) ∧
    dictLookup (saveConfigDict c) "server" = some (serverAsDict c.server) ∧
    dictLookup (saveConfigDict c) "debug" = some c.debug ∧
    dictLookup (saveConfigDict c) "config_version" = some (.str c.config_version) ∧
    dictLookup (saveConfigDict c) "proxy" = Option.none ∧
    dictKeys (saveConfigDict c) = ["perplexity", "server", "debug", "config_version"] :=
  ⟨rfl, rfl, rfl, rfl, rfl, rfl⟩

/-- C4: with an empty resolved api_key, the search tool fails with the
missing-credential error before any HTTP client is created and before any
request is posted: the effect trace is empty, for every transport. -/
theorem c4_missing_credential (cfg : AppConfig) (keyword : String)
    (reqModel reqSys : Option String)
    (post : ClientConfig → HttpRequestData → TransportResult)
    (h : cfg.perplexity.api_key = "") :
    searchT cfg keyword reqModel reqSys post = (.errMissingKey, []) := by
  simp [searchT, h]

/-- Witness for C4 at the default configuration (whose api_key is empty)
and a transport that would time out if it were ever consulted. -/
theorem c4_missing_credential_witness :
    defaultAppConfig.perplexity.api_key = "" ∧
    searchT defaultAppConfig "query" Option.none Option.none
      (fun _ _ => .timedOut) = (.errMissingKey, []) :=
  ⟨rfl, c4_missing_credential defaultAppConfig "query" Option.none Option.none
    (fun _ _ => .timedOut) rfl⟩

/-- C6: the single effective proxy follows the claimed case analysis:
only https set gives https; only http set gives http; both set gives
https; neither scheme-specific set but all set gives all; nothing set
gives none (no_proxy plays no role). -/
theorem c6_single_effective_proxy (p : ProxySettings) :
    (p.https_proxy ≠ "" → p.http_proxy = "" → p.all_proxy = "" →
      getHttpxProxy p = some p.https_proxy) ∧
    (p.http_proxy ≠ "" → p.https_proxy = "" → p.all_proxy = "" →
      getHttpxProxy p = some p.http_proxy) ∧
    (p.http_proxy ≠ "" → p.https_proxy ≠ "" →
      getHttpxProxy p = some p.https_proxy) ∧
    (p.http_proxy = "" → p.https_proxy = "" → p.all_proxy ≠ "" →
      getHttpxProxy p = some p.all_proxy) ∧
    (p.http_proxy = "" → p.https_proxy = "" → p.all_proxy = "" →
      getHttpxProxy p = Option.none) := by
  refine ⟨fun h1 h2 h3 => ?_, fun h1 h2 h3 => ?_, fun h1 h2 => ?_,
    fun h1 h2 h3 => ?_, fun h1 h2 h3 => ?_⟩ <;>
    simp [getHttpxProxy, getProxyConfig, lookupStr, h1, h2, *]

/-- Witness for C6: with both scheme-specific proxies set, the https one
is chosen. -/
theorem c6_witness :
    getHttpxProxy
      { http_proxy := "http://a", https_proxy := "https://b"
      , all_proxy := "", no_proxy := "" } = some "https://b" :=
  (c6_single_effective_proxy _).2.2.1 (by decide) (by decide)

/-- Every string starts with itself extended: the model obtained by
prepending the prefix does start with the prefix. -/
theorem pyStartsWith_append (p m : String) : pyStartsWith (p ++ m) p = true := by
  simp [pyStartsWith]

/-- C7: for the effective model (per-call override when truthy, else the
configured default), a non-empty model_prefix is prepended exactly when
the effective model does not already start with it; with an empty prefix
the model is unchanged; and the prefixing step is idempotent. -/
theorem c7_model_pfx (cfg : PerplexitySettings) (reqModel : Option String) :
    (cfg.modelPfx ≠ "" →
      usedModel cfg reqModel =
        (if pyStartsWith (effectiveModel cfg reqModel) cfg.modelPfx
         then effectiveModel cfg reqModel
         else cfg.modelPfx ++ effectiveModel cfg reqModel)) ∧
    (cfg.modelPfx = "" → usedModel cfg reqModel = effectiveModel cfg reqModel) ∧
    prefixedModel cfg.modelPfx (usedModel cfg reqModel) = usedModel cfg reqModel := by
  refine ⟨fun h => ?_, fun h => ?_, ?_⟩
  · cases hb : pyStartsWith (effectiveModel cfg reqModel) cfg.modelPfx <;>
      simp [usedModel, prefixedModel, hb, h]
  · simp [usedModel, prefixedModel, h]
  · by_cases h : cfg.modelPfx = ""
    · simp [usedModel, prefixedModel, h]
    · cases hb : pyStartsWith (effectiveModel cfg reqModel) cfg.modelPfx
      · simp [usedModel, prefixedModel, hb, h, pyStartsWith_append]
      · simp [usedModel, prefixedModel, hb, h]

/-- Witness for C7: prefix "org-" and configured model "sonar" give
"org-sonar"; an already prefixed per-call model "org-sonar" stays
unchanged. -/
theorem c7_witness :
    usedModel { defaultPerplexitySettings with modelPfx := "org-" } Option.none
      = "org-sonar" ∧
    usedModel { defaultPerplexitySettings with modelPfx := "org-" } (some "org-sonar")
      = "org-sonar" := by
  have h1 := (c7_model_pfx { defaultPerplexitySettings with modelPfx := "org-" }
    Option.none).1 (by decide)
  have h2 := (c7_model_pfx { defaultPerplexitySettings with modelPfx := "org-" }
    (some "org-sonar")).1 (by decide)
  exact ⟨by rw [h1]; rfl, by rw [h2]; rfl⟩

/-- C5: when the single effective proxy is present but fails validation,
create_http_client warns and returns a client with no proxy, and the
whole search call behaves exactly as with no proxy configured at all
(fail-open): same classified outcome for every transport. -/
theorem c5_invalid_proxy_fail_open (cfg : AppConfig) (url : String)
    (hp : getHttpxProxy cfg.proxy = some url)
    (hv : validateProxyUrl url = false) :
    (createHttpClient cfg).1.proxy = Option.none ∧
    (createHttpClient cfg).2 = [.warnInvalidProxy url, .directInvalid] ∧
    ∀ keyword reqModel reqSys post,
      searchT cfg keyword reqModel reqSys post =
        searchT (clearProxy cfg) keyword reqModel reqSys post := by
  have hclient : (createHttpClient cfg).1 =
      { timeout := cfg.perplexity.timeout, follow_redirects := true
      , proxy := Option.none } := by
    simp [createHttpClient, hp, hv]
  have hlogs : (createHttpClient cfg).2 = [.warnInvalidProxy url, .directInvalid] := by
    simp [createHttpClient, hp, hv]
  refine ⟨hclient ▸ rfl, hlogs, fun keyword reqModel reqSys post => ?_⟩
  have hclient2 : (createHttpClient (clearProxy cfg)).1 =
      { timeout := cfg.perplexity.timeout, follow_redirects := true
      , proxy := Option.none } := by
    simp [createHttpClient, clearProxy, getHttpxProxy, getProxyConfig,
      defaultProxySettings]
  simp only [searchT, hclient, hclient2]
  simp [clearProxy]

/-- Witness for C5 at a concrete configuration whose http proxy is the
invalid URL "not-a-url": client without proxy, warning logged. -/
theorem c5_invalid_proxy_witness :
    (createHttpClient
      { defaultAppConfig with
          proxy := { http_proxy := "not-a-url", https_proxy := ""
                   , all_proxy := "", no_proxy := "" } }).1.proxy = Option.none ∧
    (createHttpClient
      { defaultAppConfig with
          proxy := { http_proxy := "not-a-url", https_proxy := ""
                   , all_proxy := "", no_proxy := "" } }).2 =
      [.warnInvalidProxy "not-a-url", .directInvalid] := by
  have h := c5_invalid_proxy_fail_open
    { defaultAppConfig with
        proxy := { http_proxy := "not-a-url", https_proxy := ""
                 , all_proxy := "", no_proxy := "" } }
    "not-a-url" rfl rfl
  exact ⟨h.1, h.2.1⟩

/-- The content_parts loop collects, in input order, exactly the string
contents of the choices that have extractable content, skipping the
others, provided every choice is well-behaved. -/
theorem contentLoop_ok (l : List PyVal) (acc : List PyVal)
    (h : ∀ c ∈ l, ChoiceOk c) :
    contentLoop acc l = .ok (acc ++ (l.filterMap goodContent).map PyVal.str) := by
  induction l generalizing acc with
  | nil => simp [contentLoop]
  | cons c rest ih =>
    have hc : ChoiceOk c := h c (by simp)
    have hrest : ∀ x ∈ rest, ChoiceOk x := fun x hx => h x (by simp [hx])
    rcases hc with hc | ⟨s, hc⟩
    · simp [contentLoop, hc, goodContent, ih _ hrest]
    · simp [contentLoop, hc, goodContent, ih _ hrest]

/-- Joining a list of string values succeeds and is the space-separated
concatenation. -/
theorem joinSpacePy_strs (ss : List String) :
    joinSpacePy (ss.map PyVal.str) = .ok (String.intercalate " " ss) := by
  have hm : allStrs (ss.map PyVal.str) = some ss := by
    induction ss with
    | nil => rfl
    | cons s rest ih => simp [allStrs, ih]
  simp [joinSpacePy, hm]

/-- The citation loop renders one 1-based "[i] citation" line per element,
in input order, appended to the accumulator. -/
theorem citeFoldStr (cits : List String) : ∀ (acc : String) (i : Nat),
    ((cits.map PyVal.str).foldl
      (fun (a : String × Nat) c =>
        (a.1 ++ "[" ++ toString a.2 ++ "] " ++ pyStr c ++ "\n", a.2 + 1)) (acc, i)).1 =
      acc ++ joinAll ((cits.enumFrom i).map citationLine) := by
  induction cits with
  | nil => intro acc i; simp [joinAll]
  | cons s rest ih =>
    intro acc i
    simp only [List.map_cons, List.foldl_cons]
    rw [ih]
    simp [joinAll, citationLine, pyStr, String.append_assoc]

/-- The citation block for string citations: the header followed by the
rendered lines. -/
theorem citationsTextPy_strs (cits : List String) :
    citationsTextPy (cits.map PyVal.str) =
      "\n\n引用信息:\n" ++ joinAll ((cits.enumFrom 1).map citationLine) := by
  rw [citationsTextPy, citeFoldStr]

/-- C8: for every choices list whose dynamic extraction is well-behaved
and every string citation list, the formatted result is the extractable
contents joined with single spaces in input order (non-extractable choices
skipped), followed, when citations are non-empty, by a blank line, the
header line and one "[i] citation" line per citation with 1-based index in
input order, without re-ordering or de-duplication. -/
theorem c8_format_result (choices : List PyVal) (cits : List String)
    (h : ∀ c ∈ choices, ChoiceOk c) :
    formatSearchResult choices (.list (cits.map PyVal.str)) =
      .ok (String.intercalate " " (choices.filterMap goodContent) ++
        (if cits.isEmpty then ""
         else "\n\n引用信息:\n" ++ joinAll ((cits.enumFrom 1).map citationLine))) := by
  have h1 := contentLoop_ok choices [] h
  rw [List.nil_append] at h1
  by_cases hc : cits = []
  · subst hc
    simp [formatSearchResult, contentPartsPy, h1, pyTruthy, joinSpacePy_strs]
  · have ht : pyTruthy (.list (cits.map PyVal.str)) = true := by
      simp [pyTruthy, hc]
    have hie : cits.isEmpty = false := by simp [hc]
    simp [formatSearchResult, contentPartsPy, h1, joinSpacePy_strs, ht, pyIter,
      citationsTextPy_strs, hie]

/-- Witness for C8 at the specification example: two choices "A" and "B"
and one citation. -/
theorem c8_format_result_witness :
    formatSearchResult
      [.dict [("message", .dict [("content", .str "A")])],
       .dict [("message", .dict [("content", .str "B")])]]
      (.list [.str "http://x"]) = .ok "A B\n\n引用信息:\n[1] http://x\n" := by
  have h := c8_format_result
    [.dict [("message", .dict [("content", .str "A")])],
     .dict [("message", .dict [("content", .str "B")])]]
    ["http://x"]
    (by
      intro c hc
      simp only [List.mem_cons, List.not_mem_nil, or_false] at hc
      rcases hc with rfl | rfl
      · exact Or.inr ⟨"A", rfl⟩
      · exact Or.inr ⟨"B", rfl⟩)
  exact h.trans rfl

/-- C10: a numeric environment variable set to a string that parses
neither as an int nor as a float is treated exactly as if it were absent:
the resolved configuration and all recorded warnings are identical, for
each of the five numeric variables. -/
theorem c10_unparsable_numeric_env (f : FileInput) (e : OsEnv) (s : String)
    (hi : parseIntS s = Option.none) (hf : parseFloatS s = Option.none) :
    loadConfig f { e with PERPLEXITY_TIMEOUT := some s } =
      loadConfig f { e with PERPLEXITY_TIMEOUT := Option.none } ∧
    loadConfig f { e with PERPLEXITY_RETRY_DELAY := some s } =
      loadConfig f { e with PERPLEXITY_RETRY_DELAY := Option.none } ∧
    loadConfig f { e with PERPLEXITY_MAX_RETRIES := some s } =
      loadConfig f { e with PERPLEXITY_MAX_RETRIES := Option.none } ∧
    loadConfig f { e with MCP_PORT := some s } =
      loadConfig f { e with MCP_PORT := Option.none } ∧
    loadConfig f { e with MAX_REQUEST_SIZE := some s } =
      loadConfig f { e with MAX_REQUEST_SIZE := Option.none } := by
  have key : ∀ e₁ e₂ : OsEnv, loadFromEnv e₁ = loadFromEnv e₂ →
      loadConfig f e₁ = loadConfig f e₂ := by
    intro e₁ e₂ hq
    simp only [loadConfig, hq]
  refine ⟨key _ _ ?_, key _ _ ?_, key _ _ ?_, key _ _ ?_, key _ _ ?_⟩ <;>
    simp [loadFromEnv, envPerplexityEntries, envServerEntries, envProxyEntries,
      envDebug, parseFloatOpt, parseIntOpt, hi, hf]

/-- Witness for C10: the unparsable value "abc" on MCP_PORT, against a
missing file and an otherwise empty environment. -/
theorem c10_unparsable_numeric_env_witness :
    parseIntS "abc" = Option.none ∧ parseFloatS "abc" = Option.none ∧
    loadConfig FileInput.missing { emptyEnv with MCP_PORT := some "abc" } =
      loadConfig FileInput.missing { emptyEnv with MCP_PORT := Option.none } :=
  ⟨by decide, by decide,
    (c10_unparsable_numeric_env FileInput.missing emptyEnv "abc"
      (by decide) (by decide)).2.2.2.1⟩

/-- The reflective assignment touches the timeout field exactly for the
key "timeout". -/
theorem setPerplexityField_timeout (p : PerplexitySettingsD) (k : String) (v : PyVal) :
    (setPerplexityField p k v).timeout = if k == "timeout" then v else p.timeout := by
  unfold setPerplexityField
  split_ifs <;> simp_all

/-- The reflective assignment touches max_retries exactly for the key
"max_retries". -/
theorem setPerplexityField_max_retries (p : PerplexitySettingsD) (k : String) (v : PyVal) :
    (setPerplexityField p k v).max_retries = if k == "max_retries" then v else p.max_retries := by
  unfold setPerplexityField
  split_ifs <;> simp_all

/-- The reflective assignment touches port exactly for the key "port". -/
theorem setServerField_port (s : ServerSettingsD) (k : String) (v : PyVal) :
    (setServerField s k v).port = if k == "port" then v else s.port := by
  unfold setServerField
  split_ifs <;> simp_all

/-- The reflective assignment touches max_request_size exactly for the key
"max_request_size". -/
theorem setServerField_max_request_size (s : ServerSettingsD) (k : String) (v : PyVal) :
    (setServerField s k v).max_request_size =
      if k == "max_request_size" then v else s.max_request_size := by
  unfold setServerField
  split_ifs <;> simp_all

/-- Folding well-keyed items keeps a numeric perplexity field numeric. -/
theorem applyPerplexityItems_field_num (proj : PerplexitySettingsD → PyVal) (key : String)
    (hproj : ∀ p k v, proj (setPerplexityField p k v) = if k == key then v else proj p)
    (l : List (String × PyVal)) (p : PerplexitySettingsD)
    (hl : ∀ kv ∈ l, kv.1 = key → isNumB kv.2 = true)
    (hp : isNumB (proj p) = true) :
    isNumB (proj (applyPerplexityItems l p)) = true := by
  induction l generalizing p with
  | nil => exact hp
  | cons kv rest ih =>
    refine ih (setPerplexityField p kv.1 kv.2) (fun x hx => hl x (by simp [hx])) ?_
    rw [hproj]
    by_cases hk : (kv.1 == key) = true
    · rw [if_pos hk]
      exact hl kv (by simp) (by simpa using hk)
    · rw [if_neg hk]
      exact hp

/-- Folding well-keyed items keeps a numeric server field numeric. -/
theorem applyServerItems_field_num (proj : ServerSettingsD → PyVal) (key : String)
    (hproj : ∀ s k v, proj (setServerField s k v) = if k == key then v else proj s)
    (l : List (String × PyVal)) (s : ServerSettingsD)
    (hl : ∀ kv ∈ l, kv.1 = key → isNumB kv.2 = true)
    (hs : isNumB (proj s) = true) :
    isNumB (proj (applyServerItems l s)) = true := by
  induction l generalizing s with
  | nil => exact hs
  | cons kv rest ih =>
    refine ih (setServerField s kv.1 kv.2) (fun x hx => hl x (by simp [hx])) ?_
    rw [hproj]
    by_cases hk : (kv.1 == key) = true
    · rw [if_pos hk]
      exact hl kv (by simp) (by simpa using hk)
    · rw [if_neg hk]
      exact hs

/-- Membership in a string entry determines the key and a string value. -/
theorem mem_optStrEntry {kv : String × PyVal} {k s : String}
    (h : kv ∈ optStrEntry k s) : kv.1 = k ∧ ∃ t, kv.2 = PyVal.str t := by
  unfold optStrEntry at h
  split at h
  · cases h
  · simp only [List.mem_singleton] at h
    subst h
    exact ⟨rfl, s, rfl⟩

/-- Membership in a parsed-value entry determines the key and the value. -/
theorem mem_optValEntry {kv : String × PyVal} {k : String} {o : Option PyVal}
    (h : kv ∈ optValEntry k o) : ∃ v, o = some v ∧ kv = (k, v) := by
  cases o with
  | none => cases h
  | some v =>
    simp only [optValEntry, List.mem_singleton] at h
    exact ⟨v, rfl, h⟩

/-- Every timeout or max_retries entry produced from the environment is
numeric (timeout/retry_delay parse to floats, max_retries to an int). -/
theorem envPerplexityEntries_numKeys (e : OsEnv) :
    ∀ kv ∈ envPerplexityEntries e,
      (kv.1 = "timeout" → isNumB kv.2 = true) ∧
      (kv.1 = "max_retries" → isNumB kv.2 = true) := by
  intro kv hkv
  unfold envPerplexityEntries at hkv
  simp only [List.mem_append] at hkv
  rcases hkv with (((((((h | h) | h) | h) | h) | h) | h) | h) <;>
    first
    | (obtain ⟨hk1, t, ht⟩ := mem_optStrEntry h
       constructor <;> intro hk <;> rw [hk1] at hk <;> simp at hk)
    | (obtain ⟨v, hv, rfl⟩ := mem_optValEntry h
       obtain ⟨q, hq, rfl⟩ := Option.map_eq_some'.mp hv
       constructor <;> intro hk <;> rfl)

/-- Every port or max_request_size entry produced from the environment is
numeric (both parse to ints; enable_cors parses to a bool, also numeric
for Python comparisons). -/
theorem envServerEntries_numKeys (e : OsEnv) :
    ∀ kv ∈ envServerEntries e,
      (kv.1 = "port" → isNumB kv.2 = true) ∧
      (kv.1 = "max_request_size" → isNumB kv.2 = true) := by
  intro kv hkv
  unfold envServerEntries at hkv
  simp only [List.mem_append] at hkv
  rcases hkv with (((((h | h) | h) | h) | h) | h) <;>
    first
    | (obtain ⟨hk1, t, ht⟩ := mem_optStrEntry h
       constructor <;> intro hk <;> rw [hk1] at hk <;> simp at hk)
    | (obtain ⟨v, hv, rfl⟩ := mem_optValEntry h
       obtain ⟨q, hq, rfl⟩ := Option.map_eq_some'.mp hv
       constructor <;> intro hk <;> rfl)

/-- A numeric value always has a rational comparison view. -/
theorem pyNum_ok_of_isNumB {v : PyVal} (h : isNumB v = true) :
    ∃ q, pyNum v = .ok q := by
  cases v <;> simp_all [isNumB, pyNum]

/-- Bind on a successful Except computation. -/
theorem bindOk {α β : Type} (a : α) (f : α → Except PyErr β) :
    (Except.ok a >>= f) = f a := rfl

/-- Validation never raises when the four numerically compared fields are
numeric; it only collects warnings. -/
theorem validateConfig_ok_of_num (c : AppConfigD)
    (h1 : isNumB c.perplexity.timeout = true)
    (h2 : isNumB c.perplexity.max_retries = true)
    (h3 : isNumB c.server.port = true)
    (h4 : isNumB c.server.max_request_size = true) :
    ∃ w, validateConfig c = .ok w := by
  obtain ⟨t, ht⟩ := pyNum_ok_of_isNumB h1
  obtain ⟨r, hr⟩ := pyNum_ok_of_isNumB h2
  obtain ⟨p, hp⟩ := pyNum_ok_of_isNumB h3
  obtain ⟨m, hm⟩ := pyNum_ok_of_isNumB h4
  suffices h : (validateConfig c).isOk = true by
    cases hx : validateConfig c with
    | ok w => exact ⟨w, rfl⟩
    | error err => rw [hx] at h; cases h
  simp [validateConfig, ht, hr, hp, hm, bindOk, Except.isOk, Except.toBool, pure,
    Except.pure]

/-- Merging an empty file dict applies only the environment sections. -/
theorem mergeConfigs_emptyFile (envc : EnvConfigD) :
    mergeConfigs (.dict []) envc = .ok
      { perplexity := applyPerplexityItems envc.perplexity defaultPerplexityD
      , server := applyServerItems envc.server defaultServerD
      , proxy := defaultProxySettings
      , debug := .bool envc.debug
      , config_version := "1.0" } := rfl

/-- C3 amended: for every environment, load_config succeeds (returning a
configuration and warnings, never raising) when the file is missing, and
likewise when it is unreadable or malformed (which covers an empty file),
in which case the file-load warning is recorded; the file degrades to
defaults-plus-environment.  (The original claim fails for valid JSON of
unexpected shape, see the counterexample.) -/
theorem c3_amended_resilient_load (e : OsEnv) :
    (∃ cw, loadConfig FileInput.missing e = .ok cw) ∧
    (∃ cw, loadConfig FileInput.unreadable e = .ok cw ∧
      CfgWarning.fileLoadFailed ∈ cw.2) := by
  have hnt : isNumB (envMergedConfig e).perplexity.timeout = true :=
    applyPerplexityItems_field_num (fun p => p.timeout) "timeout"
      setPerplexityField_timeout (envPerplexityEntries e) defaultPerplexityD
      (fun kv hkv => (envPerplexityEntries_numKeys e kv hkv).1) rfl
  have hnr : isNumB (envMergedConfig e).perplexity.max_retries = true :=
    applyPerplexityItems_field_num (fun p => p.max_retries) "max_retries"
      setPerplexityField_max_retries (envPerplexityEntries e) defaultPerplexityD
      (fun kv hkv => (envPerplexityEntries_numKeys e kv hkv).2) rfl
  have hnp : isNumB (envMergedConfig e).server.port = true :=
    applyServerItems_field_num (fun s => s.port) "port"
      setServerField_port (envServerEntries e) defaultServerD
      (fun kv hkv => (envServerEntries_numKeys e kv hkv).1) rfl
  have hnm : isNumB (envMergedConfig e).server.max_request_size = true :=
    applyServerItems_field_num (fun s => s.max_request_size) "max_request_size"
      setServerField_max_request_size (envServerEntries e) defaultServerD
      (fun kv hkv => (envServerEntries_numKeys e kv hkv).2) rfl
  obtain ⟨w, hw⟩ := validateConfig_ok_of_num (envMergedConfig e) hnt hnr hnp hnm
  constructor
  · refine ⟨(envMergedConfig e, w), ?_⟩
    simp [loadConfig, loadFromFile, loadFromEnv, mergeConfigs_emptyFile, bindOk,
      envMergedConfig] at hw ⊢
    simp [hw, bindOk]
  · refine ⟨(envMergedConfig e, CfgWarning.fileLoadFailed :: w), ?_, by simp⟩
    simp [loadConfig, loadFromFile, loadFromEnv, mergeConfigs_emptyFile, bindOk,
      envMergedConfig] at hw ⊢
    simp [hw, bindOk]
